import Mathlib

/-!
# Verification of the MLB batter splits/statistics aggregation engine

Shallow embedding of the splits/statistics core of the repository
(`splits.py`, `utils.py`, the stats portion of `matchup.py`) and proofs of
the specification claims about it.

Modelling conventions:
* A pandas DataFrame becomes a `DF`: a list of `Row`s plus one Boolean per
  optional column recording whether that column is present (`'c' in df.columns`).
  Columns the code accesses unconditionally are plain `Row` fields; columns
  whose cells can be NaN are `Option`-valued.
* Python ints are `Int`; statcast floats that the code only compares and
  divides are idealized as `ℚ` (exact rationals).
* `Series.str.contains(pat, na=False)` with a literal pattern is substring
  containment (`strContains`), `NaN` rows counting as `false`.
* `round(x, 3)` is modelled by `round3` (round half to even, Python's rule).
* `pd.cut(xs, bins=b)` with default arguments assigns a value `x` to the
  interval `(b[i], b[i+1]]` (left-open, right-closed) and `none` outside.
-/

/-- Substring test on character lists: does `l` start with `pat`? -/
def listBeginsWith : List Char → List Char → Bool
  | _, [] => true
  | [], _ :: _ => false
  | a :: as, b :: bs => a == b && listBeginsWith as bs

/-- Substring containment on character lists. -/
def listContainsSub : List Char → List Char → Bool
  | [], pat => pat.isEmpty
  | l@(_ :: as), pat => listBeginsWith l pat || listContainsSub as pat

/-- Python's `pat in s` / pandas `str.contains(pat)` for a literal pattern. -/
def strContains (s pat : String) : Bool :=
  listContainsSub s.data pat.data

/-- Round a rational to the nearest integer, ties to even (Python `round`). -/
def roundHalfEven (q : ℚ) : Int :=
  let f : Int := ⌊q⌋
  let frac : ℚ := q - f
  if frac < 1/2 then f
  else if 1/2 < frac then f + 1
  else if f % 2 = 0 then f else f + 1

/-- Python `round(x, 3)`. -/
def round3 (q : ℚ) : ℚ :=
  (roundHalfEven (q * 1000) : ℚ) / 1000

/-- Python `int()` on a rational (truncation toward zero). -/
def pyInt (q : ℚ) : Int :=
  if q < 0 then -⌊-q⌋ else ⌊q⌋

/-- One statcast pitch row, restricted to the fields the verified code reads. -/
structure Row where
  game_pk : Int := 0
  at_bat_number : Int := 0
  pitch_number : Int := 0
  pitcher : Int := 0
  events : Option String := none
  balls : Int := 0
  strikes : Int := 0
  outs_when_up : Int := 0
  on_1b : Option Int := none
  on_2b : Option Int := none
  on_3b : Option Int := none
  inning : Int := 0
  bat_score_diff : Int := 0
  bat_score : Option Int := none
  post_bat_score : Option Int := none
  delta_run_exp : Option ℚ := none
  home_team : Option String := none
  p_throws : Option String := none
  game_date : Option String := none
deriving DecidableEq

/-- A pybaseball statcast DataFrame: rows plus presence flags for the columns
the code tests with `'col' in df.columns`.  Boolean masking `df[mask]`
becomes filtering `rows` while keeping the flags. -/
structure DF where
  rows : List Row := []
  hasBatScoreDiff : Bool := true
  hasHomeTeam : Bool := true
  hasPThrows : Bool := true
  hasBatScore : Bool := true
  hasPostBatScore : Bool := true
  hasDeltaRunExp : Bool := true
  hasGameDate : Bool := true
deriving DecidableEq

/-- `df[df['events'].notna()]` — the PA-ending outcome rows. -/
def outcomeRows (df : DF) : List Row :=
  df.rows.filter (fun r => r.events.isSome)

/-- `events['events'].isin(names)` on one row. -/
def eventIs (r : Row) (names : List String) : Bool :=
  match r.events with
  | some e => names.contains e
  | none => false

/-- `events['events'].str.contains(pat, na=False)` on one row. -/
def eventContains (r : Row) (pat : String) : Bool :=
  match r.events with
  | some e => strContains e pat
  | none => false

/-- The legal values of the `events` column (data model, spec section 3). -/
def legalEvents : List String :=
  ["single", "double", "triple", "home_run", "walk", "intent_walk",
   "hit_by_pitch", "strikeout", "strikeout_double_play", "field_out",
   "force_out", "grounded_into_double_play", "sac_fly",
   "sac_fly_double_play", "sac_bunt", "sac_bunt_double_play",
   "field_error", "fielders_choice", "fielders_choice_out",
   "double_play", "triple_play"]

/-- Every non-null `events` cell of the table holds a legal event value. -/
def dfLegalB (df : DF) : Bool :=
  df.rows.all (fun r =>
    match r.events with
    | some e => legalEvents.contains e
    | none => true)

/-- `rbi_eligible_events` from `calculate_stats` (splits.py). -/
def rbi_eligible_events : List String :=
  ["single", "double", "triple", "home_run",
   "sac_fly", "sac_fly_double_play",
   "field_out", "grounded_into_double_play"]

/-- RBI credited to a single outcome row by the loop in `calculate_stats`
(splits.py lines 96-125), given the score columns are present. -/
def row_rbi (r : Row) : Int :=
  match r.events with
  | none => 0
  | some event_type =>
    if rbi_eligible_events.contains event_type then
      match r.post_bat_score, r.bat_score with
      | some post, some bat => if post - bat > 0 then post - bat else 0
      | _, _ => 0
    else if event_type = "walk" ∨ event_type = "intent_walk" ∨
            event_type = "hit_by_pitch" then
      if r.on_1b.isSome ∧ r.on_2b.isSome ∧ r.on_3b.isSome then
        match r.post_bat_score, r.bat_score with
        | some post, some bat => if post - bat > 0 then post - bat else 0
        | _, _ => 0
      else 0
    else 0

/-- The `delta_run_exp` fallback RBI estimate (splits.py lines 127-136). -/
def rbi_fallback (events : List Row) : Int :=
  let rbi_eligible := events.filter (fun r =>
    eventIs r ["single", "double", "triple", "home_run",
               "sac_fly", "sac_fly_double_play",
               "field_out", "grounded_into_double_play"])
  let positive_changes := (rbi_eligible.map (fun r => r.delta_run_exp.getD 0)).filter
    (fun q => q > 0)
  pyInt positive_changes.sum

/-- The RBI computation of `calculate_stats`, with the column-presence
dispatch (`post_bat_score`/`bat_score` loop, else `delta_run_exp` fallback,
else 0). -/
def calc_rbi (df : DF) (events : List Row) : Int :=
  if df.hasPostBatScore ∧ df.hasBatScore then (events.map row_rbi).sum
  else if df.hasDeltaRunExp then rbi_fallback events
  else 0

/-- Games: distinct `game_pk` among outcome rows, with the documented
`game_date` fallback when that count is 0 (splits.py lines 152-161). -/
def calc_games (df : DF) (events : List Row) : Int :=
  let games : Int := ((events.map (fun r => r.game_pk)).dedup).length
  if df.hasGameDate ∧ games = 0 then
    ((events.filterMap (fun r => r.game_date)).dedup).length
  else games

/-- All counting stats of `calculate_stats` before the rate-stat step. -/
structure StatCounts where
  pa : Int
  hits : Int
  singles : Int
  doubles : Int
  triples : Int
  hr : Int
  bb : Int
  ibb : Int
  hbp : Int
  so : Int
  sac_hit : Int
  sac_fly : Int
  gdp : Int
  ab : Int
  tb : Int
  rbi : Int
  runs : Int
  games : Int
deriving DecidableEq

/-- The counting portion of `calculate_stats` (splits.py lines 59-161),
translated clause by clause. -/
def calcCounts (df : DF) : StatCounts :=
  let events := outcomeRows df
  let pa : Int := ((df.rows.map (fun r => (r.game_pk, r.at_bat_number))).dedup).length
  let hits : Int := (events.filter (fun r =>
    eventIs r ["single", "double", "triple", "home_run"])).length
  let singles : Int := (events.filter (fun r => eventIs r ["single"])).length
  let doubles : Int := (events.filter (fun r => eventIs r ["double"])).length
  let triples : Int := (events.filter (fun r => eventIs r ["triple"])).length
  let hr : Int := (events.filter (fun r => eventIs r ["home_run"])).length
  let bb : Int := (events.filter (fun r => eventIs r ["walk"])).length
  let ibb : Int := (events.filter (fun r => eventIs r ["intent_walk"])).length
  let hbp : Int := (events.filter (fun r => eventIs r ["hit_by_pitch"])).length
  let so : Int := (events.filter (fun r =>
    eventIs r ["strikeout", "strikeout_double_play"])).length
  let sac_hit : Int := (events.filter (fun r =>
    eventIs r ["sac_bunt", "sac_bunt_double_play"])).length
  let sac_fly : Int := (events.filter (fun r =>
    eventIs r ["sac_fly", "sac_fly_double_play"])).length
  let gdp : Int :=
    ((events.filter (fun r => eventContains r "double_play")).length : Int) -
    ((events.filter (fun r =>
      eventIs r ["sac_bunt_double_play", "sac_fly_double_play"])).length : Int)
  let ab : Int := pa - bb - hbp - sac_hit - sac_fly
  let tb : Int := singles + 2 * doubles + 3 * triples + 4 * hr
  { pa := pa, hits := hits, singles := singles, doubles := doubles,
    triples := triples, hr := hr, bb := bb, ibb := ibb, hbp := hbp, so := so,
    sac_hit := sac_hit, sac_fly := sac_fly, gdp := gdp, ab := ab, tb := tb,
    rbi := calc_rbi df events, runs := 0, games := calc_games df events }

/-- The BattingLine record returned by `calculate_stats` (`2B`/`3B` are not
legal Lean names and become `doubles`/`triples`). -/
structure BattingLine where
  G : Int
  PA : Int
  AB : Int
  R : Int
  H : Int
  doubles : Int
  triples : Int
  HR : Int
  RBI : Int
  BB : Int
  SO : Int
  BA : ℚ
  OBP : ℚ
  SLG : ℚ
  OPS : ℚ
  TB : Int
  GDP : Int
  HBP : Int
  SH : Int
  SF : Int
  IBB : Int
  BAbip : ℚ
deriving DecidableEq

/-- `_empty_stats()` (splits.py lines 189-196). -/
def _empty_stats : BattingLine :=
  { G := 0, PA := 0, AB := 0, R := 0, H := 0, doubles := 0, triples := 0,
    HR := 0, RBI := 0, BB := 0, SO := 0, BA := 0, OBP := 0, SLG := 0,
    OPS := 0, TB := 0, GDP := 0, HBP := 0, SH := 0, SF := 0, IBB := 0,
    BAbip := 0 }

/-- The rate-stat step and final record of `calculate_stats`
(splits.py lines 138-186), as a function of the counting stats. -/
def statsFromCounts (c : StatCounts) : BattingLine :=
  let ba : ℚ := if c.ab > 0 then (c.hits : ℚ) / (c.ab : ℚ) else 0
  let obp : ℚ :=
    if c.ab + c.bb + c.hbp + c.sac_fly > 0 then
      ((c.hits + c.bb + c.hbp : Int) : ℚ) /
        ((c.ab + c.bb + c.hbp + c.sac_fly : Int) : ℚ)
    else 0
  let slg : ℚ := if c.ab > 0 then (c.tb : ℚ) / (c.ab : ℚ) else 0
  let ops : ℚ := obp + slg
  let balls_in_play : Int := c.ab - c.so - c.hr
  let hits_in_play : Int := c.hits - c.hr
  let babip : ℚ :=
    if balls_in_play > 0 then (hits_in_play : ℚ) / (balls_in_play : ℚ) else 0
  { G := c.games, PA := c.pa, AB := c.ab, R := c.runs, H := c.hits,
    doubles := c.doubles, triples := c.triples, HR := c.hr, RBI := c.rbi,
    BB := c.bb, SO := c.so, BA := round3 ba, OBP := round3 obp,
    SLG := round3 slg, OPS := round3 ops, TB := c.tb, GDP := c.gdp,
    HBP := c.hbp, SH := c.sac_hit, SF := c.sac_fly, IBB := c.ibb,
    BAbip := round3 babip }

/-- `calculate_stats` (splits.py lines 46-186). -/
def calculate_stats (df : DF) : BattingLine :=
  if (outcomeRows df).isEmpty then _empty_stats
  else statsFromCounts (calcCounts df)

/-- The local variable `obp` of `calculate_stats` before rounding
(0 when the empty-outcome branch is taken). -/
def obp_raw (df : DF) : ℚ :=
  if (outcomeRows df).isEmpty then 0
  else
    let c := calcCounts df
    if c.ab + c.bb + c.hbp + c.sac_fly > 0 then
      ((c.hits + c.bb + c.hbp : Int) : ℚ) /
        ((c.ab + c.bb + c.hbp + c.sac_fly : Int) : ℚ)
    else 0

/-- The local variable `slg` of `calculate_stats` before rounding. -/
def slg_raw (df : DF) : ℚ :=
  if (outcomeRows df).isEmpty then 0
  else
    let c := calcCounts df
    if c.ab > 0 then (c.tb : ℚ) / (c.ab : ℚ) else 0

/-- The local variable `ba` of `calculate_stats` before rounding. -/
def ba_raw (df : DF) : ℚ :=
  if (outcomeRows df).isEmpty then 0
  else
    let c := calcCounts df
    if c.ab > 0 then (c.hits : ℚ) / (c.ab : ℚ) else 0

/-!
## Split classifiers (splits.py)

A returned `pd.DataFrame` of split rows becomes a `List (String × BattingLine)`
(the `Split` label paired with the stats); the empty DataFrame is `[]`.
-/

/-- One `results.append` site guarded by `if mask.sum() > 0`: emit the bucket
only when some row matches. -/
def maybeBucket (label : String) (df : DF) (rows : List Row) :
    List (String × BattingLine) :=
  if rows.isEmpty then [] else [(label, calculate_stats { df with rows := rows })]

/-- Mask of the `2 Outs, RISP` bucket (splits.py line 219). -/
def rispRows (df : DF) : List Row :=
  df.rows.filter (fun r => r.outs_when_up == 2 && (r.on_2b.isSome || r.on_3b.isSome))

/-- Mask of the `Late & Close` bucket (splits.py line 227). -/
def lateCloseRows (df : DF) : List Row :=
  df.rows.filter (fun r => r.inning ≥ 7 && |r.bat_score_diff| ≤ 1)

/-- Mask of the `Tie Game` bucket (splits.py line 235). -/
def tieRows (df : DF) : List Row :=
  df.rows.filter (fun r => r.bat_score_diff == 0)

/-- Mask of a `Within {n}R` bucket (splits.py line 244). -/
def withinRows (df : DF) (n : Int) : List Row :=
  df.rows.filter (fun r => |r.bat_score_diff| ≤ n)

/-- Mask of the `Margin >4R` bucket (splits.py line 251). -/
def marginRows (df : DF) : List Row :=
  df.rows.filter (fun r => |r.bat_score_diff| > 4)

/-- Mask of the `Ahead` bucket (splits.py line 258). -/
def aheadRows (df : DF) : List Row :=
  df.rows.filter (fun r => r.bat_score_diff > 0)

/-- Mask of the `Behind` bucket (splits.py line 265). -/
def behindRows (df : DF) : List Row :=
  df.rows.filter (fun r => r.bat_score_diff < 0)

/-- `get_clutch_splits` (splits.py lines 203-277).  The three
`if 'bat_score_diff' in df.columns` blocks are kept separate as in the
source; the trailing column-reordering step only moves the label first,
which the pair representation already does. -/
def get_clutch_splits (df : DF) : List (String × BattingLine) :=
  maybeBucket "2 Outs, RISP" df (rispRows df)
  ++ (if df.hasBatScoreDiff then maybeBucket "Late & Close" df (lateCloseRows df) else [])
  ++ (if df.hasBatScoreDiff then maybeBucket "Tie Game" df (tieRows df) else [])
  ++ (if df.hasBatScoreDiff then
        maybeBucket "Within 1R" df (withinRows df 1)
        ++ maybeBucket "Within 2R" df (withinRows df 2)
        ++ maybeBucket "Within 3R" df (withinRows df 3)
        ++ maybeBucket "Within 4R" df (withinRows df 4)
        ++ maybeBucket "Margin >4R" df (marginRows df)
        ++ maybeBucket "Ahead" df (aheadRows df)
        ++ maybeBucket "Behind" df (behindRows df)
      else [])

/-- Character comparison by code point (Python string ordering). -/
def charLtB (a b : Char) : Bool :=
  a.toNat < b.toNat

/-- Lexicographic order on character lists. -/
def listLexLt : List Char → List Char → Bool
  | [], [] => false
  | [], _ :: _ => true
  | _ :: _, [] => false
  | a :: as, b :: bs => charLtB a b || (a == b && listLexLt as bs)

/-- Python `<` on strings (code-point lexicographic). -/
def strLtB (a b : String) : Bool :=
  listLexLt a.data b.data

/-- `a ≤ b` on strings. -/
def strLeB (a b : String) : Bool :=
  !(strLtB b a)

/-- Insert into a sorted list of strings. -/
def insertSorted (a : String) : List String → List String
  | [] => [a]
  | b :: bs => if strLeB a b then a :: b :: bs else b :: insertSorted a bs

/-- Python `sorted` on a list of strings (insertion sort; the inputs it is
applied to are duplicate-free, so any correct sort agrees). -/
def sortStrings : List String → List String
  | [] => []
  | a :: as => insertSorted a (sortStrings as)

/-- `get_ballpark_splits` (splits.py lines 454-486): guard on the
`home_team` column, then one bucket per distinct park, sorted. -/
def get_ballpark_splits (df : DF) : List (String × BattingLine) :=
  if df.hasHomeTeam = false then []
  else
    let ballparks := sortStrings ((df.rows.filterMap (fun r => r.home_team)).dedup)
    (ballparks.map (fun park =>
      maybeBucket park df (df.rows.filter (fun r => r.home_team == some park)))).flatten

/-- `get_platoon_splits` (splits.py lines 524-561): guard on the
`p_throws` column, then the `vs LHP` and `vs RHP` buckets. -/
def get_platoon_splits (df : DF) : List (String × BattingLine) :=
  if df.hasPThrows = false then []
  else
    maybeBucket "vs LHP" df (df.rows.filter (fun r => r.p_throws == some "L"))
    ++ maybeBucket "vs RHP" df (df.rows.filter (fun r => r.p_throws == some "R"))

/-- PA of the bucket labelled `label` in a split table, 0 when the bucket
was omitted. -/
def splitPA (t : List (String × BattingLine)) (label : String) : Int :=
  match t.find? (fun p => p.1 == label) with
  | some p => p.2.PA
  | none => 0

/-!
## utils.py
-/

/-- `categorize_count` (utils.py lines 4-18), reading the `balls` and
`strikes` fields of a row. -/
def categorize_count (balls strikes : Int) : String :=
  if strikes = 2 then "2-strike (pressure)"
  else if balls ≥ 2 ∧ strikes = 0 then "Hitter ahead (2-0, 3-0)"
  else if balls = 3 ∧ strikes = 2 then "Full count situations"
  else if strikes ≥ balls then "Pitcher ahead"
  else "Hitter ahead"

/-- The `at_bat_events` list of `calculate_zone_batting_average`
(utils.py lines 28-33). -/
def at_bat_events : List String :=
  ["single", "double", "triple", "home_run",
   "field_out", "force_out", "grounded_into_double_play",
   "strikeout", "strikeout_double_play", "fielders_choice_out",
   "double_play", "triple_play", "field_error", "fielders_choice"]

/-- `pd.cut(df['plate_x'], bins=[-1.0, -0.33, 0.33, 1.0],
labels=['Left', 'Middle', 'Right'])` on one value: default `pd.cut` buckets
a value into the left-open right-closed interval `(edge_i, edge_(i+1)]`
and yields no label outside the outer edges (utils.py lines 40-44). -/
def zone_x (x : ℚ) : Option String :=
  if -1 < x ∧ x ≤ -33/100 then some "Left"
  else if -33/100 < x ∧ x ≤ 33/100 then some "Middle"
  else if 33/100 < x ∧ x ≤ 1 then some "Right"
  else none

/-- `pd.cut(df['plate_z'], bins=[1.5, 2.3, 3.1, 3.9],
labels=['Low', 'Mid', 'High'])` on one value (utils.py lines 45-49). -/
def zone_z (z : ℚ) : Option String :=
  if 3/2 < z ∧ z ≤ 23/10 then some "Low"
  else if 23/10 < z ∧ z ≤ 31/10 then some "Mid"
  else if 31/10 < z ∧ z ≤ 39/10 then some "High"
  else none

/-!
## matchup.py

`pitcher_matchup` mixes UI code with the stats computation; the embedding
keeps the data path: filter to the selected pitcher, then the summary-stat
block (matchup.py lines 44-69).
-/

/-- `player_data[player_data['pitcher'] == selected_pitcher_id]`. -/
def matchup_filter (df : DF) (pid : Int) : DF :=
  { df with rows := df.rows.filter (fun r => r.pitcher == pid) }

/-- Modelled from the spec: `count_at_bats` is imported from the utils
module (matchup.py line 7) but no function of that name exists anywhere in
the repository.  Spec section 4.4 says the Matchup Resolver "run[s] the
Aggregator for summary stats", so the missing function is modelled as the
Aggregator's AB on the same rows. -/
def count_at_bats (df : DF) : Int :=
  (calculate_stats df).AB

/-- The summary statistics computed by `pitcher_matchup`
(matchup.py lines 45-69). -/
structure MatchupStats where
  total_pitches : Int
  at_bats : Int
  hits : Int
  singles : Int
  doubles : Int
  triples : Int
  home_runs : Int
  walks : Int
  hbp : Int
  sac_flies : Int
  strikeouts : Int
  avg : ℚ
  obp : ℚ
  slg : ℚ
  ops : ℚ
deriving DecidableEq

/-- The stats block of `pitcher_matchup` (matchup.py lines 44-69),
translated clause by clause over the pitcher-filtered table. -/
def pitcher_matchup_stats (player_data : DF) (pid : Int) : MatchupStats :=
  let matchup_data := matchup_filter player_data pid
  let outcomes := outcomeRows matchup_data
  let total_pitches : Int := matchup_data.rows.length
  let at_bats : Int := count_at_bats matchup_data
  let hits : Int := (outcomes.filter (fun r =>
    eventIs r ["single", "double", "triple", "home_run"])).length
  let singles : Int := (outcomes.filter (fun r => eventIs r ["single"])).length
  let doubles : Int := (outcomes.filter (fun r => eventIs r ["double"])).length
  let triples : Int := (outcomes.filter (fun r => eventIs r ["triple"])).length
  let home_runs : Int := (outcomes.filter (fun r => eventIs r ["home_run"])).length
  let walks : Int := (outcomes.filter (fun r => eventContains r "walk")).length
  let hbp : Int := (outcomes.filter (fun r => eventIs r ["hit_by_pitch"])).length
  let sac_flies : Int := (outcomes.filter (fun r =>
    eventIs r ["sac_fly", "sac_fly_double_play"])).length
  let strikeouts : Int := (outcomes.filter (fun r => eventContains r "strikeout")).length
  let avg : ℚ := if at_bats > 0 then (hits : ℚ) / (at_bats : ℚ) else 0
  let obp : ℚ :=
    if at_bats + walks + hbp + sac_flies > 0 then
      ((hits + walks + hbp : Int) : ℚ) / ((at_bats + walks + hbp + sac_flies : Int) : ℚ)
    else 0
  let total_bases : Int := singles + 2 * doubles + 3 * triples + 4 * home_runs
  let slg : ℚ := if at_bats > 0 then (total_bases : ℚ) / (at_bats : ℚ) else 0
  let ops : ℚ := obp + slg
  { total_pitches := total_pitches, at_bats := at_bats, hits := hits,
    singles := singles, doubles := doubles, triples := triples,
    home_runs := home_runs, walks := walks, hbp := hbp,
    sac_flies := sac_flies, strikeouts := strikeouts,
    avg := avg, obp := obp, slg := slg, ops := ops }

/-!
## The module-level import in matchup.py

`from utils import count_at_bats` resolves against the names defined at
top level of utils.py; resolution failure is Python's ImportError, raised
before `pitcher_matchup` can run.
-/

/-- The names defined at top level of utils.py. -/
def utils_defs : List String :=
  ["categorize_count", "calculate_zone_batting_average"]

/-- Result of running a piece of Python code: a value, or an import error
naming the unresolved binding. -/
inductive PyResult (α : Type) where
  | ok (a : α)
  | importError (name : String)
deriving DecidableEq

/-- `from utils import name`. -/
def from_utils_import (name : String) : Option String :=
  if utils_defs.contains name then some name else none

/-- Invoking `pitcher_matchup` (matchup.py): the module first resolves
`from utils import count_at_bats`; only if that succeeds can the stats
block run. -/
def pitcher_matchup (player_data : DF) (pid : Int) : PyResult MatchupStats :=
  match from_utils_import "count_at_bats" with
  | none => PyResult.importError "count_at_bats"
  | some _ => PyResult.ok (pitcher_matchup_stats player_data pid)

def dfW5 : DF := { rows := [{ game_pk := 5, at_bat_number := 1 }] }

def dfC6 : DF := { rows := [
  { game_pk := 1, at_bat_number := 1, events := some "single" },
  { game_pk := 1, at_bat_number := 2, events := some "field_out" },
  { game_pk := 1, at_bat_number := 3, events := some "field_out" }] }

def dfW3 : DF :=
  { rows := [], hasHomeTeam := false, hasPThrows := false,
    hasBatScoreDiff := false }

def dfC3 : DF :=
  { rows := [{ game_pk := 1, at_bat_number := 1, outs_when_up := 2,
               on_2b := some 1, events := some "single" }],
    hasBatScoreDiff := false }

def dfW8 : DF := { rows := [
  { game_pk := 2, at_bat_number := 1, events := some "grounded_into_double_play" },
  { game_pk := 2, at_bat_number := 2, events := some "sac_fly_double_play" }] }

def dfC8 : DF := { rows := [
  { game_pk := 1, at_bat_number := 1, events := some "strikeout_double_play" }] }

/-- PA of the `Within {n}R` bucket as the clutch classifier computes it,
with an omitted (empty-mask) bucket counting as 0. -/
def withinPA (df : DF) (n : Int) : Int :=
  if (withinRows df n).isEmpty then 0
  else (calculate_stats { df with rows := withinRows df n }).PA

/-- The matchup OBP formula (matchup.py line 66) expressed over the
Aggregator's counts: it is the Aggregator's raw OBP with BB replaced by
BB + IBB, because the matchup code counts every event containing "walk". -/
def obp_ibb_raw (df : DF) : ℚ :=
  if (outcomeRows df).isEmpty then 0
  else
    let c := calcCounts df
    let walks := c.bb + c.ibb
    if c.ab + walks + c.hbp + c.sac_fly > 0 then
      ((c.hits + walks + c.hbp : Int) : ℚ) /
        ((c.ab + walks + c.hbp + c.sac_fly : Int) : ℚ)
    else 0

/-- The local variable `hits` of `pitcher_matchup` (matchup.py line 52). -/
def matchup_hits (df : DF) (pid : Int) : Int :=
  ((outcomeRows (matchup_filter df pid)).filter (fun r =>
    eventIs r ["single", "double", "triple", "home_run"])).length

/-- The local variable `singles` of `pitcher_matchup` (matchup.py line 53). -/
def matchup_singles (df : DF) (pid : Int) : Int :=
  ((outcomeRows (matchup_filter df pid)).filter (fun r => eventIs r ["single"])).length

/-- The local variable `doubles` of `pitcher_matchup` (matchup.py line 54). -/
def matchup_doubles (df : DF) (pid : Int) : Int :=
  ((outcomeRows (matchup_filter df pid)).filter (fun r => eventIs r ["double"])).length

/-- The local variable `triples` of `pitcher_matchup` (matchup.py line 55). -/
def matchup_triples (df : DF) (pid : Int) : Int :=
  ((outcomeRows (matchup_filter df pid)).filter (fun r => eventIs r ["triple"])).length

/-- The local variable `home_runs` of `pitcher_matchup` (matchup.py line 56). -/
def matchup_home_runs (df : DF) (pid : Int) : Int :=
  ((outcomeRows (matchup_filter df pid)).filter (fun r => eventIs r ["home_run"])).length

/-- The local variable `walks` of `pitcher_matchup` (matchup.py line 59):
events containing the substring "walk". -/
def matchup_walks (df : DF) (pid : Int) : Int :=
  ((outcomeRows (matchup_filter df pid)).filter (fun r => eventContains r "walk")).length

/-- The local variable `hbp` of `pitcher_matchup` (matchup.py line 60). -/
def matchup_hbp (df : DF) (pid : Int) : Int :=
  ((outcomeRows (matchup_filter df pid)).filter (fun r => eventIs r ["hit_by_pitch"])).length

/-- The local variable `sac_flies` of `pitcher_matchup` (matchup.py line 61). -/
def matchup_sac_flies (df : DF) (pid : Int) : Int :=
  ((outcomeRows (matchup_filter df pid)).filter (fun r =>
    eventIs r ["sac_fly", "sac_fly_double_play"])).length

/-- The local variable `strikeouts` of `pitcher_matchup` (matchup.py line 62):
events containing the substring "strikeout". -/
def matchup_strikeouts (df : DF) (pid : Int) : Int :=
  ((outcomeRows (matchup_filter df pid)).filter (fun r => eventContains r "strikeout")).length

def dfC1 : DF := { rows := [
  { game_pk := 1, at_bat_number := 1, pitcher := 7, events := some "single" },
  { game_pk := 1, at_bat_number := 2, pitcher := 7, events := some "field_out" },
  { game_pk := 1, at_bat_number := 3, pitcher := 7, events := some "field_out" },
  { game_pk := 1, at_bat_number := 4, pitcher := 7, events := some "field_out" },
  { game_pk := 1, at_bat_number := 5, pitcher := 7, events := some "field_out" },
  { game_pk := 1, at_bat_number := 6, pitcher := 7, events := some "intent_walk" }] }

def dfW1 : DF := { rows := [
  { game_pk := 3, at_bat_number := 1, pitcher := 7, events := some "single" },
  { game_pk := 3, at_bat_number := 2, pitcher := 7, events := some "strikeout" },
  { game_pk := 3, at_bat_number := 3, pitcher := 8, events := some "walk" }] }

/-!
## Helper lemmas
-/

theorem calcCounts_ab (df : DF) :
    (calcCounts df).ab = (calcCounts df).pa - (calcCounts df).bb -
      (calcCounts df).hbp - (calcCounts df).sac_hit - (calcCounts df).sac_fly := by
  rfl

/-- C4: For every input pitch table, the BattingLine returned by
`calculate_stats` satisfies the exact integer identity
AB + BB + HBP + SH + SF == PA. -/
theorem C4_ab_pa_identity (df : DF) :
    (calculate_stats df).AB + (calculate_stats df).BB + (calculate_stats df).HBP +
      (calculate_stats df).SH + (calculate_stats df).SF = (calculate_stats df).PA := by
  have h := calcCounts_ab df
  unfold calculate_stats
  split
  · simp [_empty_stats]
  · simp only [statsFromCounts]
    omega

/-- C9: `categorize_count` assigns exactly one bucket following the stated
priority order (`strikes == 2` first), and consequently the
"Full count situations" branch is unreachable: no input returns it. -/
theorem C9_full_count_unreachable (balls strikes : Int) :
    categorize_count balls strikes ≠ "Full count situations" ∧
    categorize_count balls strikes =
      (if strikes = 2 then "2-strike (pressure)"
       else if balls ≥ 2 ∧ strikes = 0 then "Hitter ahead (2-0, 3-0)"
       else if strikes ≥ balls then "Pitcher ahead"
       else "Hitter ahead") := by
  constructor
  · unfold categorize_count
    split_ifs with h1 h2 h3 <;> first
      | decide
      | exact absurd h3.2 h1
  · unfold categorize_count
    split_ifs with h1 h2 h3 <;> first
      | rfl
      | exact absurd h3.2 h1

/-- C2: `pitcher_matchup` imports `count_at_bats` from the utils module,
but utils defines only `categorize_count` and
`calculate_zone_batting_average`; hence for every input, invoking
`pitcher_matchup` yields the unresolved-import error instead of matchup
statistics. -/
theorem C2_import_error :
    "count_at_bats" ∉ utils_defs ∧
    utils_defs = ["categorize_count", "calculate_zone_batting_average"] ∧
    ∀ (df : DF) (pid : Int),
      pitcher_matchup df pid = PyResult.importError "count_at_bats" := by
  refine ⟨by decide, rfl, fun df pid => rfl⟩

/-- C5: on an input with zero rows, or all of whose rows have a null
`events` field, `calculate_stats` returns exactly the documented zero/empty
BattingLine constant (it is a total function: it cannot raise or return
null). -/
theorem C5_empty_input (df : DF)
    (h : df.rows = [] ∨ ∀ r ∈ df.rows, r.events = none) :
    calculate_stats df = _empty_stats := by
  have he : outcomeRows df = [] := by
    cases h with
    | inl h0 => simp [outcomeRows, h0]
    | inr h0 =>
      rw [outcomeRows, List.filter_eq_nil_iff]
      intro r hr
      simp [h0 r hr]
  unfold calculate_stats
  rw [he]
  rfl

theorem C5_empty_input_witness :
    (dfW5.rows = [] ∨ ∀ r ∈ dfW5.rows, r.events = none) ∧
    calculate_stats dfW5 = _empty_stats :=
  ⟨Or.inr (by decide), C5_empty_input dfW5 (Or.inr (by decide))⟩

theorem zone_x_left (x : ℚ) :
    zone_x x = some "Left" ↔ -1 < x ∧ x ≤ -33/100 := by
  unfold zone_x
  split_ifs with h1 h2 h3
  · exact ⟨fun _ => h1, fun _ => rfl⟩
  · exact ⟨fun h => absurd (Option.some.inj h) (by decide),
           fun h => absurd h.2 (not_le.mpr h2.1)⟩
  · exact ⟨fun h => absurd (Option.some.inj h) (by decide),
           fun h => absurd h.2
             (not_le.mpr (lt_trans (show (-33/100 : ℚ) < 33/100 by norm_num) h3.1))⟩
  · exact ⟨fun h => h.elim, fun h => absurd h h1⟩

theorem zone_x_middle (x : ℚ) :
    zone_x x = some "Middle" ↔ -33/100 < x ∧ x ≤ 33/100 := by
  unfold zone_x
  split_ifs with h1 h2 h3
  · exact ⟨fun h => absurd (Option.some.inj h) (by decide),
           fun h => absurd h.1 (not_lt.mpr h1.2)⟩
  · exact ⟨fun _ => h2, fun _ => rfl⟩
  · exact ⟨fun h => absurd (Option.some.inj h) (by decide),
           fun h => absurd h.2 (not_le.mpr h3.1)⟩
  · exact ⟨fun h => h.elim, fun h => absurd h h2⟩

theorem zone_x_right (x : ℚ) :
    zone_x x = some "Right" ↔ 33/100 < x ∧ x ≤ 1 := by
  unfold zone_x
  split_ifs with h1 h2 h3
  · exact ⟨fun h => absurd (Option.some.inj h) (by decide),
           fun h => absurd h.1
             (not_lt.mpr (le_trans h1.2 (show (-33/100 : ℚ) ≤ 33/100 by norm_num)))⟩
  · exact ⟨fun h => absurd (Option.some.inj h) (by decide),
           fun h => absurd h.1 (not_lt.mpr h2.2)⟩
  · exact ⟨fun _ => h3, fun _ => rfl⟩
  · exact ⟨fun h => h.elim, fun h => absurd h h3⟩

theorem zone_z_low (z : ℚ) :
    zone_z z = some "Low" ↔ 3/2 < z ∧ z ≤ 23/10 := by
  unfold zone_z
  split_ifs with h1 h2 h3
  · exact ⟨fun _ => h1, fun _ => rfl⟩
  · exact ⟨fun h => absurd (Option.some.inj h) (by decide),
           fun h => absurd h.2 (not_le.mpr h2.1)⟩
  · exact ⟨fun h => absurd (Option.some.inj h) (by decide),
           fun h => absurd h.2
             (not_le.mpr (lt_trans (show (23/10 : ℚ) < 31/10 by norm_num) h3.1))⟩
  · exact ⟨fun h => h.elim, fun h => absurd h h1⟩

theorem zone_z_mid (z : ℚ) :
    zone_z z = some "Mid" ↔ 23/10 < z ∧ z ≤ 31/10 := by
  unfold zone_z
  split_ifs with h1 h2 h3
  · exact ⟨fun h => absurd (Option.some.inj h) (by decide),
           fun h => absurd h.1 (not_lt.mpr h1.2)⟩
  · exact ⟨fun _ => h2, fun _ => rfl⟩
  · exact ⟨fun h => absurd (Option.some.inj h) (by decide),
           fun h => absurd h.2 (not_le.mpr h3.1)⟩
  · exact ⟨fun h => h.elim, fun h => absurd h h2⟩

theorem zone_z_high (z : ℚ) :
    zone_z z = some "High" ↔ 31/10 < z ∧ z ≤ 39/10 := by
  unfold zone_z
  split_ifs with h1 h2 h3
  · exact ⟨fun h => absurd (Option.some.inj h) (by decide),
           fun h => absurd h.1
             (not_lt.mpr (le_trans h1.2 (show (23/10 : ℚ) ≤ 31/10 by norm_num)))⟩
  · exact ⟨fun h => absurd (Option.some.inj h) (by decide),
           fun h => absurd h.1 (not_lt.mpr h2.2)⟩
  · exact ⟨fun _ => h3, fun _ => rfl⟩
  · exact ⟨fun h => h.elim, fun h => absurd h h3⟩

/-- C7 (amended): the zone buckets are left-OPEN, right-CLOSED (`pd.cut`
default): Left = (-1.0, -0.33], Middle = (-0.33, 0.33], Right = (0.33, 1.0],
Low = (1.5, 2.3], Mid = (2.3, 3.1], High = (3.1, 3.9]; a value on or left of
the leftmost edge, or right of the rightmost edge, gets no zone. -/
theorem C7_zone_buckets_amended (x z : ℚ) :
    (zone_x x = some "Left" ↔ -1 < x ∧ x ≤ -33/100) ∧
    (zone_x x = some "Middle" ↔ -33/100 < x ∧ x ≤ 33/100) ∧
    (zone_x x = some "Right" ↔ 33/100 < x ∧ x ≤ 1) ∧
    (zone_z z = some "Low" ↔ 3/2 < z ∧ z ≤ 23/10) ∧
    (zone_z z = some "Mid" ↔ 23/10 < z ∧ z ≤ 31/10) ∧
    (zone_z z = some "High" ↔ 31/10 < z ∧ z ≤ 39/10) :=
  ⟨zone_x_left x, zone_x_middle x, zone_x_right x,
   zone_z_low z, zone_z_mid z, zone_z_high z⟩

/-- C7 (counterexample): the claim's half-open intervals are wrong at the
edges.  `plate_x = -0.33` lies in the claim's Middle interval
[-0.33, 0.33) but the code buckets it Left; `plate_x = -1.0` lies in the
claim's Left interval [-1.0, -0.33) but the code assigns it no zone. -/
theorem C7_zone_buckets_counterexample :
    (zone_x (-33/100) = some "Left" ∧
      ¬(-1 ≤ (-33/100 : ℚ) ∧ (-33/100 : ℚ) < -33/100)) ∧
    (zone_x (-1) = none ∧ (-1 ≤ (-1 : ℚ) ∧ (-1 : ℚ) < -33/100)) := by
  refine ⟨⟨?_, by norm_num⟩, ⟨?_, by norm_num⟩⟩
  · unfold zone_x
    norm_num
  · unfold zone_x
    norm_num

/-- C6 (amended): the identity holds exactly on the UNROUNDED values: the
returned OPS field is the 3-decimal rounding of the exact sum
`obp_raw + slg_raw`, while the returned OBP and SLG fields are the
roundings of the two summands — so the rounded fields can disagree with
OPS in the final decimal. -/
theorem C6_ops_amended (df : DF) :
    (calculate_stats df).OPS = round3 (obp_raw df + slg_raw df) ∧
    (calculate_stats df).OBP = round3 (obp_raw df) ∧
    (calculate_stats df).SLG = round3 (slg_raw df) := by
  unfold calculate_stats obp_raw slg_raw
  split_ifs with h
  · refine ⟨?_, ?_, ?_⟩ <;> norm_num [_empty_stats, round3, roundHalfEven]
  · exact ⟨rfl, rfl, rfl⟩

/-- C6 (counterexample): on a 1-for-3 input the returned rounded fields are
OBP = SLG = 0.333 and OPS = 0.667, so OPS differs from OBP + SLG = 0.666:
the identity does not hold exactly over the returned 3-decimal-rounded
values. -/
theorem C6_ops_counterexample :
    (calculate_stats dfC6).OPS ≠
      (calculate_stats dfC6).OBP + (calculate_stats dfC6).SLG := by
  have h1 : calcCounts dfC6 =
      { pa := 3, hits := 1, singles := 1, doubles := 0, triples := 0,
        hr := 0, bb := 0, ibb := 0, hbp := 0, so := 0, sac_hit := 0,
        sac_fly := 0, gdp := 0, ab := 3, tb := 1, rbi := 0, runs := 0,
        games := 1 } := by decide
  have h2 : (outcomeRows dfC6).isEmpty = false := by decide
  have h3 : calculate_stats dfC6 = statsFromCounts (calcCounts dfC6) := by
    unfold calculate_stats
    rw [h2]
    rfl
  rw [h3, h1]
  unfold statsFromCounts
  norm_num [round3, roundHalfEven]

/-- C3 (amended): the guarded classifiers behave as claimed — ballpark
splits return the empty table when `home_team` is absent and platoon
splits return the empty table when `p_throws` is absent — but the clutch
classifier with `bat_score_diff` absent does NOT return an empty table: it
skips only the score-diff-dependent buckets and still emits the
"2 Outs, RISP" bucket.  None of them fail, and each classifier is an
independent pure function of its input, so a missing column in one cannot
abort a sibling. -/
theorem C3_missing_column_amended (df : DF) :
    (df.hasHomeTeam = false → get_ballpark_splits df = []) ∧
    (df.hasPThrows = false → get_platoon_splits df = []) ∧
    (df.hasBatScoreDiff = false →
      get_clutch_splits df = maybeBucket "2 Outs, RISP" df (rispRows df)) := by
  refine ⟨fun h => ?_, fun h => ?_, fun h => ?_⟩
  · unfold get_ballpark_splits
    rw [h]
    simp
  · unfold get_platoon_splits
    rw [h]
    simp
  · unfold get_clutch_splits
    rw [h]
    simp

theorem C3_missing_column_amended_witness :
    get_ballpark_splits dfW3 = [] ∧ get_platoon_splits dfW3 = [] ∧
    get_clutch_splits dfW3 = maybeBucket "2 Outs, RISP" dfW3 (rispRows dfW3) :=
  ⟨(C3_missing_column_amended dfW3).1 rfl,
   (C3_missing_column_amended dfW3).2.1 rfl,
   (C3_missing_column_amended dfW3).2.2 rfl⟩

/-- C3 (counterexample): a table lacking the `bat_score_diff` column whose
single row is a 2-out RISP single — `get_clutch_splits` returns a
non-empty table (the "2 Outs, RISP" bucket), not the empty SplitTable the
claim requires of a classifier missing a required column. -/
theorem C3_missing_column_counterexample :
    dfC3.hasBatScoreDiff = false ∧ get_clutch_splits dfC3 ≠ [] := by
  refine ⟨rfl, ?_⟩
  have hr : rispRows dfC3 = dfC3.rows := by decide
  unfold get_clutch_splits
  rw [hr]
  simp [maybeBucket, dfC3]

theorem length_filter_split {α : Type} (l : List α) (p q w : α → Bool)
    (h : ∀ a ∈ l, p a = (q a || w a) ∧ ¬(q a = true ∧ w a = true)) :
    (l.filter p).length = (l.filter q).length + (l.filter w).length := by
  induction l with
  | nil => rfl
  | cons a t ih =>
    have ha := h a (List.mem_cons_self a t)
    have ih2 := ih (fun b hb => h b (List.mem_cons_of_mem a hb))
    by_cases hq : q a = true
    · have hw0 : w a = false := by
        cases hwv : w a
        · rfl
        · exact absurd ⟨hq, hwv⟩ ha.2
      have hp : p a = true := by rw [ha.1, hq, hw0]; rfl
      simp [List.filter_cons, hp, hq, hw0, ih2]
      try omega
    · have hq0 : q a = false := by simpa using hq
      by_cases hw : w a = true
      · have hp : p a = true := by rw [ha.1, hq0, hw]; rfl
        simp [List.filter_cons, hp, hq0, hw, ih2]
        try omega
      · have hw0 : w a = false := by simpa using hw
        have hp : p a = false := by rw [ha.1, hq0, hw0]; rfl
        simp [List.filter_cons, hp, hq0, hw0, ih2]
        try omega

theorem legal_of_mem (df : DF) (h : dfLegalB df = true) :
    ∀ r ∈ df.rows, ∀ e, r.events = some e → legalEvents.contains e = true := by
  intro r hr e he
  have h0 := (List.all_eq_true.mp h) r hr
  rw [he] at h0
  exact h0

theorem legal_of_mem_outcome (df : DF) (h : dfLegalB df = true) :
    ∀ r ∈ outcomeRows df, ∀ e, r.events = some e → legalEvents.contains e = true := by
  intro r hr
  exact legal_of_mem df h r (List.mem_of_mem_filter hr)

theorem row_dp_split (r : Row)
    (hr : ∀ e, r.events = some e → legalEvents.contains e = true) :
    eventContains r "double_play" =
      (eventIs r ["sac_bunt_double_play", "sac_fly_double_play"] ||
       eventIs r ["strikeout_double_play", "grounded_into_double_play", "double_play"]) ∧
    ¬(eventIs r ["sac_bunt_double_play", "sac_fly_double_play"] = true ∧
      eventIs r ["strikeout_double_play", "grounded_into_double_play", "double_play"] = true) := by
  have key : ∀ x ∈ legalEvents,
      (strContains x "double_play" =
        (["sac_bunt_double_play", "sac_fly_double_play"].contains x ||
         ["strikeout_double_play", "grounded_into_double_play", "double_play"].contains x)) ∧
      ¬(["sac_bunt_double_play", "sac_fly_double_play"].contains x = true ∧
        ["strikeout_double_play", "grounded_into_double_play", "double_play"].contains x = true) := by
    decide
  cases hev : r.events with
  | none => simp [eventContains, eventIs, hev]
  | some e =>
    have hmem : e ∈ legalEvents := by
      have := hr e hev
      simpa using this
    have hx := key e hmem
    simp only [eventContains, eventIs, hev]
    exact hx

theorem row_walk_split (r : Row)
    (hr : ∀ e, r.events = some e → legalEvents.contains e = true) :
    eventContains r "walk" =
      (eventIs r ["walk"] || eventIs r ["intent_walk"]) ∧
    ¬(eventIs r ["walk"] = true ∧ eventIs r ["intent_walk"] = true) := by
  have key : ∀ x ∈ legalEvents,
      (strContains x "walk" =
        (["walk"].contains x || ["intent_walk"].contains x)) ∧
      ¬(["walk"].contains x = true ∧ ["intent_walk"].contains x = true) := by
    decide
  cases hev : r.events with
  | none => simp [eventContains, eventIs, hev]
  | some e =>
    have hmem : e ∈ legalEvents := by
      have := hr e hev
      simpa using this
    have hx := key e hmem
    simp only [eventContains, eventIs, hev]
    exact hx

theorem row_strikeout_eq (r : Row)
    (hr : ∀ e, r.events = some e → legalEvents.contains e = true) :
    eventContains r "strikeout" =
      eventIs r ["strikeout", "strikeout_double_play"] := by
  have key : ∀ x ∈ legalEvents,
      strContains x "strikeout" =
        ["strikeout", "strikeout_double_play"].contains x := by
    decide
  cases hev : r.events with
  | none => simp [eventContains, eventIs, hev]
  | some e =>
    have hmem : e ∈ legalEvents := by
      have := hr e hev
      simpa using this
    have hx := key e hmem
    simp only [eventContains, eventIs, hev]
    exact hx

/-- C8 (amended): GDP does equal (outcome rows whose events contain the
substring "double_play") minus (sac_bunt_double_play and
sac_fly_double_play rows), but over the legal event vocabulary that
quantity counts the strikeout_double_play, grounded_into_double_play and
double_play rows — it is NOT ground-ball double plays only, since
strikeout double plays contribute. -/
theorem C8_gdp_amended (df : DF) (h : dfLegalB df = true) :
    (calculate_stats df).GDP =
      (((outcomeRows df).filter (fun r => eventContains r "double_play")).length : Int) -
      (((outcomeRows df).filter (fun r =>
        eventIs r ["sac_bunt_double_play", "sac_fly_double_play"])).length : Int) ∧
    (calculate_stats df).GDP =
      (((outcomeRows df).filter (fun r =>
        eventIs r ["strikeout_double_play", "grounded_into_double_play",
                   "double_play"])).length : Int) := by
  have hgdp : (calculate_stats df).GDP =
      (((outcomeRows df).filter (fun r => eventContains r "double_play")).length : Int) -
      (((outcomeRows df).filter (fun r =>
        eventIs r ["sac_bunt_double_play", "sac_fly_double_play"])).length : Int) := by
    unfold calculate_stats
    split_ifs with hemp
    · have he : outcomeRows df = [] := by simpa [List.isEmpty_iff] using hemp
      simp [he, _empty_stats]
    · rfl
  refine ⟨hgdp, ?_⟩
  have key := length_filter_split (outcomeRows df)
      (fun r => eventContains r "double_play")
      (fun r => eventIs r ["sac_bunt_double_play", "sac_fly_double_play"])
      (fun r => eventIs r ["strikeout_double_play", "grounded_into_double_play",
                           "double_play"])
      (fun r hr => row_dp_split r (legal_of_mem_outcome df h r hr))
  rw [hgdp, key]
  push_cast
  ring

theorem C8_gdp_amended_witness :
    dfLegalB dfW8 = true ∧
    (calculate_stats dfW8).GDP =
      (((outcomeRows dfW8).filter (fun r =>
        eventIs r ["strikeout_double_play", "grounded_into_double_play",
                   "double_play"])).length : Int) :=
  ⟨by decide, (C8_gdp_amended dfW8 (by decide)).2⟩

/-- C8 (counterexample): an input whose only outcome row is a
strikeout_double_play — not a ground-ball double play, and with zero
grounded_into_double_play/double_play rows — still gets GDP = 1, so GDP
does not count ground-ball double plays only. -/
theorem C8_gdp_counterexample :
    (calculate_stats dfC8).GDP = 1 ∧
    (dfC8.rows.filter (fun r =>
      eventIs r ["grounded_into_double_play", "double_play"])).length = 0 := by
  constructor
  · decide
  · decide

theorem find_maybeBucket_ne (label target : String) (df : DF) (rows : List Row)
    (h : (label == target) = false) :
    (maybeBucket label df rows).find? (fun p => p.1 == target) = none := by
  unfold maybeBucket
  split_ifs
  · rfl
  · simp [List.find?, h]

theorem find_none_append {α : Type} (p : α → Bool) (l1 l2 : List α)
    (h1 : l1.find? p = none) (h2 : l2.find? p = none) :
    (l1 ++ l2).find? p = none := by
  rw [List.find?_append, h1, h2]
  rfl

theorem splitPA_append_none (l1 l2 : List (String × BattingLine)) (t : String)
    (h : l1.find? (fun p => p.1 == t) = none) :
    splitPA (l1 ++ l2) t = splitPA l2 t := by
  unfold splitPA
  rw [List.find?_append, h, Option.none_or]

theorem splitPA_maybeBucket_head (label : String) (df : DF) (rows : List Row)
    (l2 : List (String × BattingLine))
    (h2 : l2.find? (fun p => p.1 == label) = none) :
    splitPA (maybeBucket label df rows ++ l2) label =
      (if rows.isEmpty then 0
       else (calculate_stats { df with rows := rows }).PA) := by
  unfold maybeBucket
  split_ifs with hr
  · rw [List.nil_append]
    unfold splitPA
    rw [h2]
  · unfold splitPA
    rw [List.find?_append]
    simp [List.find?]

theorem calculate_stats_PA_nonneg (df : DF) : 0 ≤ (calculate_stats df).PA := by
  unfold calculate_stats
  split_ifs
  · norm_num [_empty_stats]
  · have h0 : (statsFromCounts (calcCounts df)).PA =
        (((df.rows.map (fun r => (r.game_pk, r.at_bat_number))).dedup).length : Int) := rfl
    rw [h0]
    exact Int.natCast_nonneg _

theorem calculate_stats_PA_eq (df : DF) (rows : List Row)
    (h : (outcomeRows { df with rows := rows }).isEmpty = false) :
    (calculate_stats { df with rows := rows }).PA =
      ((rows.map (fun r => (r.game_pk, r.at_bat_number))).dedup.length : Int) := by
  unfold calculate_stats
  rw [h]
  rfl

theorem dedup_length_mono {α : Type} [DecidableEq α] (l1 l2 : List α)
    (h : ∀ a ∈ l1, a ∈ l2) : l1.dedup.length ≤ l2.dedup.length := by
  have h1 : l1.toFinset ⊆ l2.toFinset := fun a ha => by
    rw [List.mem_toFinset] at ha ⊢
    exact h a ha
  have h2 := Finset.card_le_card h1
  rwa [List.card_toFinset, List.card_toFinset] at h2

theorem withinRows_subset (df : DF) {n m : Int} (hnm : n ≤ m) :
    ∀ r ∈ withinRows df n, r ∈ withinRows df m := by
  intro r hr
  rw [withinRows, List.mem_filter] at hr ⊢
  refine ⟨hr.1, ?_⟩
  have h2 := of_decide_eq_true hr.2
  exact decide_eq_true (le_trans h2 hnm)

theorem withinPA_mono (df : DF) {n m : Int} (hnm : n ≤ m) :
    withinPA df n ≤ withinPA df m := by
  unfold withinPA
  by_cases h1 : (withinRows df n).isEmpty
  · rw [if_pos h1]
    by_cases h2 : (withinRows df m).isEmpty
    · rw [if_pos h2]
    · rw [if_neg h2]
      exact calculate_stats_PA_nonneg _
  · rw [if_neg h1]
    have hn : withinRows df n ≠ [] := by
      intro hc
      exact h1 (by simp [hc])
    have h2 : ¬(withinRows df m).isEmpty := by
      intro hc
      obtain ⟨r, hr⟩ := List.exists_mem_of_ne_nil _ hn
      have hm : r ∈ withinRows df m := withinRows_subset df hnm r hr
      rw [List.isEmpty_iff] at hc
      rw [hc] at hm
      exact absurd hm (List.not_mem_nil r)
    rw [if_neg h2]
    by_cases he : (outcomeRows { df with rows := withinRows df n }).isEmpty
    · have hz : calculate_stats { df with rows := withinRows df n } = _empty_stats := by
        unfold calculate_stats
        rw [he]
        rfl
      rw [hz]
      have h0 := calculate_stats_PA_nonneg { df with rows := withinRows df m }
      simpa [_empty_stats] using h0
    · have hne : (outcomeRows { df with rows := withinRows df n }).isEmpty = false := by
        simpa using he
      have hme : (outcomeRows { df with rows := withinRows df m }).isEmpty = false := by
        have hn2 : outcomeRows { df with rows := withinRows df n } ≠ [] := by
          intro hc
          rw [hc] at hne
          simp at hne
        obtain ⟨r, hr⟩ := List.exists_mem_of_ne_nil _ hn2
        have hr2 : r ∈ withinRows df n ∧ r.events.isSome = true := by
          have := hr
          unfold outcomeRows at this
          exact List.mem_filter.mp this
        have hmem : r ∈ outcomeRows { df with rows := withinRows df m } := by
          unfold outcomeRows
          exact List.mem_filter.mpr ⟨withinRows_subset df hnm r hr2.1, hr2.2⟩
        cases hval : outcomeRows { df with rows := withinRows df m } with
        | nil =>
          rw [hval] at hmem
          exact absurd hmem (List.not_mem_nil r)
        | cons a t => rfl
      rw [calculate_stats_PA_eq df _ hne, calculate_stats_PA_eq df _ hme]
      have hsub : ∀ x ∈ (withinRows df n).map (fun r => (r.game_pk, r.at_bat_number)),
          x ∈ (withinRows df m).map (fun r => (r.game_pk, r.at_bat_number)) := by
        intro x hx
        rw [List.mem_map] at hx ⊢
        obtain ⟨r, hr, hxe⟩ := hx
        exact ⟨r, withinRows_subset df hnm r hr, hxe⟩
      exact_mod_cast dedup_length_mono _ _ hsub

theorem splitPA_clutch_within_1 (df : DF) (h : df.hasBatScoreDiff = true) :
    splitPA (get_clutch_splits df) "Within 1R" = withinPA df 1 := by
  unfold get_clutch_splits
  rw [h]
  simp only [eq_self_iff_true, if_true]
  simp only [List.append_assoc]
  rw [splitPA_append_none _ _ _ (find_maybeBucket_ne "2 Outs, RISP" "Within 1R" df _ (by decide))]
  rw [splitPA_append_none _ _ _ (find_maybeBucket_ne "Late & Close" "Within 1R" df _ (by decide))]
  rw [splitPA_append_none _ _ _ (find_maybeBucket_ne "Tie Game" "Within 1R" df _ (by decide))]
  have hrest : (maybeBucket "Within 2R" df (withinRows df 2) ++
      (maybeBucket "Within 3R" df (withinRows df 3) ++
      (maybeBucket "Within 4R" df (withinRows df 4) ++
      (maybeBucket "Margin >4R" df (marginRows df) ++
      (maybeBucket "Ahead" df (aheadRows df) ++
       maybeBucket "Behind" df (behindRows df)))))).find?
      (fun p => p.1 == "Within 1R") = none := by
    refine find_none_append _ _ _ (find_maybeBucket_ne _ _ df _ (by decide)) ?_
    refine find_none_append _ _ _ (find_maybeBucket_ne _ _ df _ (by decide)) ?_
    refine find_none_append _ _ _ (find_maybeBucket_ne _ _ df _ (by decide)) ?_
    refine find_none_append _ _ _ (find_maybeBucket_ne _ _ df _ (by decide)) ?_
    exact find_none_append _ _ _ (find_maybeBucket_ne _ _ df _ (by decide))
      (find_maybeBucket_ne _ _ df _ (by decide))
  rw [splitPA_maybeBucket_head "Within 1R" df _ _ hrest]
  rfl

theorem splitPA_clutch_within_2 (df : DF) (h : df.hasBatScoreDiff = true) :
    splitPA (get_clutch_splits df) "Within 2R" = withinPA df 2 := by
  unfold get_clutch_splits
  rw [h]
  simp only [eq_self_iff_true, if_true]
  simp only [List.append_assoc]
  rw [splitPA_append_none _ _ _ (find_maybeBucket_ne "2 Outs, RISP" "Within 2R" df _ (by decide))]
  rw [splitPA_append_none _ _ _ (find_maybeBucket_ne "Late & Close" "Within 2R" df _ (by decide))]
  rw [splitPA_append_none _ _ _ (find_maybeBucket_ne "Tie Game" "Within 2R" df _ (by decide))]
  rw [splitPA_append_none _ _ _ (find_maybeBucket_ne "Within 1R" "Within 2R" df _ (by decide))]
  have hrest : (maybeBucket "Within 3R" df (withinRows df 3) ++
      (maybeBucket "Within 4R" df (withinRows df 4) ++
      (maybeBucket "Margin >4R" df (marginRows df) ++
      (maybeBucket "Ahead" df (aheadRows df) ++
       maybeBucket "Behind" df (behindRows df))))).find?
      (fun p => p.1 == "Within 2R") = none := by
    refine find_none_append _ _ _ (find_maybeBucket_ne _ _ df _ (by decide)) ?_
    refine find_none_append _ _ _ (find_maybeBucket_ne _ _ df _ (by decide)) ?_
    refine find_none_append _ _ _ (find_maybeBucket_ne _ _ df _ (by decide)) ?_
    exact find_none_append _ _ _ (find_maybeBucket_ne _ _ df _ (by decide))
      (find_maybeBucket_ne _ _ df _ (by decide))
  rw [splitPA_maybeBucket_head "Within 2R" df _ _ hrest]
  rfl

theorem splitPA_clutch_within_3 (df : DF) (h : df.hasBatScoreDiff = true) :
    splitPA (get_clutch_splits df) "Within 3R" = withinPA df 3 := by
  unfold get_clutch_splits
  rw [h]
  simp only [eq_self_iff_true, if_true]
  simp only [List.append_assoc]
  rw [splitPA_append_none _ _ _ (find_maybeBucket_ne "2 Outs, RISP" "Within 3R" df _ (by decide))]
  rw [splitPA_append_none _ _ _ (find_maybeBucket_ne "Late & Close" "Within 3R" df _ (by decide))]
  rw [splitPA_append_none _ _ _ (find_maybeBucket_ne "Tie Game" "Within 3R" df _ (by decide))]
  rw [splitPA_append_none _ _ _ (find_maybeBucket_ne "Within 1R" "Within 3R" df _ (by decide))]
  rw [splitPA_append_none _ _ _ (find_maybeBucket_ne "Within 2R" "Within 3R" df _ (by decide))]
  have hrest : (maybeBucket "Within 4R" df (withinRows df 4) ++
      (maybeBucket "Margin >4R" df (marginRows df) ++
      (maybeBucket "Ahead" df (aheadRows df) ++
       maybeBucket "Behind" df (behindRows df)))).find?
      (fun p => p.1 == "Within 3R") = none := by
    refine find_none_append _ _ _ (find_maybeBucket_ne _ _ df _ (by decide)) ?_
    refine find_none_append _ _ _ (find_maybeBucket_ne _ _ df _ (by decide)) ?_
    exact find_none_append _ _ _ (find_maybeBucket_ne _ _ df _ (by decide))
      (find_maybeBucket_ne _ _ df _ (by decide))
  rw [splitPA_maybeBucket_head "Within 3R" df _ _ hrest]
  rfl

theorem splitPA_clutch_within_4 (df : DF) (h : df.hasBatScoreDiff = true) :
    splitPA (get_clutch_splits df) "Within 4R" = withinPA df 4 := by
  unfold get_clutch_splits
  rw [h]
  simp only [eq_self_iff_true, if_true]
  simp only [List.append_assoc]
  rw [splitPA_append_none _ _ _ (find_maybeBucket_ne "2 Outs, RISP" "Within 4R" df _ (by decide))]
  rw [splitPA_append_none _ _ _ (find_maybeBucket_ne "Late & Close" "Within 4R" df _ (by decide))]
  rw [splitPA_append_none _ _ _ (find_maybeBucket_ne "Tie Game" "Within 4R" df _ (by decide))]
  rw [splitPA_append_none _ _ _ (find_maybeBucket_ne "Within 1R" "Within 4R" df _ (by decide))]
  rw [splitPA_append_none _ _ _ (find_maybeBucket_ne "Within 2R" "Within 4R" df _ (by decide))]
  rw [splitPA_append_none _ _ _ (find_maybeBucket_ne "Within 3R" "Within 4R" df _ (by decide))]
  have hrest : (maybeBucket "Margin >4R" df (marginRows df) ++
      (maybeBucket "Ahead" df (aheadRows df) ++
       maybeBucket "Behind" df (behindRows df))).find?
      (fun p => p.1 == "Within 4R") = none := by
    refine find_none_append _ _ _ (find_maybeBucket_ne _ _ df _ (by decide)) ?_
    exact find_none_append _ _ _ (find_maybeBucket_ne _ _ df _ (by decide))
      (find_maybeBucket_ne _ _ df _ (by decide))
  rw [splitPA_maybeBucket_head "Within 4R" df _ _ hrest]
  rfl

theorem splitPA_clutch_no_bsd (df : DF) (h : df.hasBatScoreDiff = false)
    (t : String) (ht : ("2 Outs, RISP" == t) = false) :
    splitPA (get_clutch_splits df) t = 0 := by
  unfold get_clutch_splits
  rw [h]
  simp only [Bool.false_eq_true, if_false, List.append_nil]
  unfold splitPA
  rw [find_maybeBucket_ne "2 Outs, RISP" t df _ ht]

/-- C10: for any fixed input table, the clutch SplitTable's "Within 1R"
bucket has PA at most the "Within 2R" bucket's PA, which is at most the
"Within 3R" bucket's, which is at most the "Within 4R" bucket's (an
omitted bucket counting as PA 0).  This also covers tables without the
`bat_score_diff` column, where all four buckets are omitted. -/
theorem C10_within_pa_monotone (df : DF) :
    splitPA (get_clutch_splits df) "Within 1R" ≤
      splitPA (get_clutch_splits df) "Within 2R" ∧
    splitPA (get_clutch_splits df) "Within 2R" ≤
      splitPA (get_clutch_splits df) "Within 3R" ∧
    splitPA (get_clutch_splits df) "Within 3R" ≤
      splitPA (get_clutch_splits df) "Within 4R" := by
  by_cases h : df.hasBatScoreDiff = true
  · rw [splitPA_clutch_within_1 df h, splitPA_clutch_within_2 df h,
        splitPA_clutch_within_3 df h, splitPA_clutch_within_4 df h]
    exact ⟨withinPA_mono df (by norm_num), withinPA_mono df (by norm_num),
           withinPA_mono df (by norm_num)⟩
  · have hf : df.hasBatScoreDiff = false := by simpa using h
    rw [splitPA_clutch_no_bsd df hf "Within 1R" (by decide),
        splitPA_clutch_no_bsd df hf "Within 2R" (by decide),
        splitPA_clutch_no_bsd df hf "Within 3R" (by decide),
        splitPA_clutch_no_bsd df hf "Within 4R" (by decide)]
    exact ⟨le_refl 0, le_refl 0, le_refl 0⟩

theorem cs_nonempty (df : DF) (h : (outcomeRows df).isEmpty = false) :
    calculate_stats df = statsFromCounts (calcCounts df) := by
  unfold calculate_stats
  rw [h]
  rfl

theorem cs_empty (df : DF) (h : (outcomeRows df).isEmpty = true) :
    calculate_stats df = _empty_stats := by
  unfold calculate_stats
  rw [h]
  rfl

theorem cs_H (df : DF) (h : (outcomeRows df).isEmpty = false) :
    (calculate_stats df).H = (((outcomeRows df).filter (fun r =>
      eventIs r ["single", "double", "triple", "home_run"])).length : Int) := by
  rw [cs_nonempty df h]
  rfl

theorem cs_SO (df : DF) (h : (outcomeRows df).isEmpty = false) :
    (calculate_stats df).SO = (((outcomeRows df).filter (fun r =>
      eventIs r ["strikeout", "strikeout_double_play"])).length : Int) := by
  rw [cs_nonempty df h]
  rfl

theorem cs_BB (df : DF) (h : (outcomeRows df).isEmpty = false) :
    (calculate_stats df).BB = (((outcomeRows df).filter (fun r =>
      eventIs r ["walk"])).length : Int) := by
  rw [cs_nonempty df h]
  rfl

theorem cs_IBB (df : DF) (h : (outcomeRows df).isEmpty = false) :
    (calculate_stats df).IBB = (((outcomeRows df).filter (fun r =>
      eventIs r ["intent_walk"])).length : Int) := by
  rw [cs_nonempty df h]
  rfl

theorem count_at_bats_eq (df : DF) (h : (outcomeRows df).isEmpty = false) :
    count_at_bats df = (calcCounts df).ab := by
  unfold count_at_bats
  rw [cs_nonempty df h]
  rfl

theorem count_at_bats_empty (df : DF) (h : (outcomeRows df).isEmpty = true) :
    count_at_bats df = 0 := by
  unfold count_at_bats
  rw [cs_empty df h]
  rfl

theorem dfLegal_matchup (df : DF) (pid : Int) (h : dfLegalB df = true) :
    dfLegalB (matchup_filter df pid) = true := by
  unfold dfLegalB at h ⊢
  rw [List.all_eq_true] at h ⊢
  intro r hr
  exact h r (List.mem_of_mem_filter hr)

theorem pms_at_bats (df : DF) (pid : Int) :
    (pitcher_matchup_stats df pid).at_bats =
      count_at_bats (matchup_filter df pid) := rfl

theorem pms_hits (df : DF) (pid : Int) :
    (pitcher_matchup_stats df pid).hits = matchup_hits df pid := rfl

theorem pms_walks (df : DF) (pid : Int) :
    (pitcher_matchup_stats df pid).walks = matchup_walks df pid := rfl

theorem pms_strikeouts (df : DF) (pid : Int) :
    (pitcher_matchup_stats df pid).strikeouts = matchup_strikeouts df pid := rfl

theorem pms_avg (df : DF) (pid : Int) :
    (pitcher_matchup_stats df pid).avg =
      (if count_at_bats (matchup_filter df pid) > 0 then
        (matchup_hits df pid : ℚ) / (count_at_bats (matchup_filter df pid) : ℚ)
      else 0) := rfl

theorem pms_obp (df : DF) (pid : Int) :
    (pitcher_matchup_stats df pid).obp =
      (if count_at_bats (matchup_filter df pid) + matchup_walks df pid +
          matchup_hbp df pid + matchup_sac_flies df pid > 0 then
        ((matchup_hits df pid + matchup_walks df pid + matchup_hbp df pid : Int) : ℚ) /
          ((count_at_bats (matchup_filter df pid) + matchup_walks df pid +
            matchup_hbp df pid + matchup_sac_flies df pid : Int) : ℚ)
      else 0) := rfl

theorem pms_slg (df : DF) (pid : Int) :
    (pitcher_matchup_stats df pid).slg =
      (if count_at_bats (matchup_filter df pid) > 0 then
        ((matchup_singles df pid + 2 * matchup_doubles df pid +
          3 * matchup_triples df pid + 4 * matchup_home_runs df pid : Int) : ℚ) /
          (count_at_bats (matchup_filter df pid) : ℚ)
      else 0) := rfl

theorem pms_ops (df : DF) (pid : Int) :
    (pitcher_matchup_stats df pid).ops =
      (pitcher_matchup_stats df pid).obp + (pitcher_matchup_stats df pid).slg := rfl

/-- C1 (amended): with the missing `count_at_bats` modelled from the spec
as the Aggregator's AB on the same rows, the Matchup Resolver's summary
stats over the pitcher-filtered rows relate to the Aggregator's BattingLine
as follows: at-bats = AB, hits = H, strikeouts = SO, but walks = BB + IBB
(the matchup counts every event containing "walk", so intentional walks are
included); AVG and SLG equal the Aggregator's UNROUNDED BA and SLG (the
BattingLine fields are 3-decimal roundings); OBP and OPS equal the
Aggregator's unrounded formulas with BB replaced by BB + IBB. -/
theorem C1_matchup_refinement_amended (df : DF) (pid : Int)
    (h : dfLegalB df = true) :
    (pitcher_matchup_stats df pid).at_bats =
      (calculate_stats (matchup_filter df pid)).AB ∧
    (pitcher_matchup_stats df pid).hits =
      (calculate_stats (matchup_filter df pid)).H ∧
    (pitcher_matchup_stats df pid).strikeouts =
      (calculate_stats (matchup_filter df pid)).SO ∧
    (pitcher_matchup_stats df pid).walks =
      (calculate_stats (matchup_filter df pid)).BB +
        (calculate_stats (matchup_filter df pid)).IBB ∧
    (pitcher_matchup_stats df pid).avg = ba_raw (matchup_filter df pid) ∧
    (pitcher_matchup_stats df pid).slg = slg_raw (matchup_filter df pid) ∧
    (pitcher_matchup_stats df pid).obp = obp_ibb_raw (matchup_filter df pid) ∧
    (pitcher_matchup_stats df pid).ops =
      obp_ibb_raw (matchup_filter df pid) + slg_raw (matchup_filter df pid) := by
  by_cases hemp : (outcomeRows (matchup_filter df pid)).isEmpty
  · -- no outcome rows for this pitcher: everything is zero on both sides
    have he : outcomeRows (matchup_filter df pid) = [] := by
      simpa [List.isEmpty_iff] using hemp
    have hcs := cs_empty _ hemp
    have hab0 := count_at_bats_empty _ hemp
    have hhits : (pitcher_matchup_stats df pid).hits =
        (calculate_stats (matchup_filter df pid)).H := by
      rw [pms_hits, hcs]
      unfold matchup_hits
      rw [he]
      rfl
    have hso : (pitcher_matchup_stats df pid).strikeouts =
        (calculate_stats (matchup_filter df pid)).SO := by
      rw [pms_strikeouts, hcs]
      unfold matchup_strikeouts
      rw [he]
      rfl
    have hwalks : (pitcher_matchup_stats df pid).walks =
        (calculate_stats (matchup_filter df pid)).BB +
          (calculate_stats (matchup_filter df pid)).IBB := by
      rw [pms_walks, hcs]
      unfold matchup_walks
      rw [he]
      rfl
    have havg : (pitcher_matchup_stats df pid).avg =
        ba_raw (matchup_filter df pid) := by
      rw [pms_avg, hab0]
      unfold ba_raw
      rw [hemp]
      norm_num
    have hslg : (pitcher_matchup_stats df pid).slg =
        slg_raw (matchup_filter df pid) := by
      rw [pms_slg, hab0]
      unfold slg_raw
      rw [hemp]
      norm_num
    have hobp : (pitcher_matchup_stats df pid).obp =
        obp_ibb_raw (matchup_filter df pid) := by
      rw [pms_obp, hab0]
      unfold obp_ibb_raw
      rw [hemp]
      simp [matchup_walks, matchup_hbp, matchup_sac_flies, matchup_hits, he]
    have hops : (pitcher_matchup_stats df pid).ops =
        obp_ibb_raw (matchup_filter df pid) + slg_raw (matchup_filter df pid) := by
      rw [pms_ops, hobp, hslg]
    exact ⟨by rw [pms_at_bats, hab0, hcs]; rfl, hhits, hso, hwalks, havg, hslg, hobp,
      hops⟩
  · have hne : (outcomeRows (matchup_filter df pid)).isEmpty = false := by
      simpa using hemp
    have hL := dfLegal_matchup df pid h
    have hLout := legal_of_mem_outcome (matchup_filter df pid) hL
    have hwalkNat := length_filter_split (outcomeRows (matchup_filter df pid))
      (fun r => eventContains r "walk")
      (fun r => eventIs r ["walk"])
      (fun r => eventIs r ["intent_walk"])
      (fun r hr => row_walk_split r (hLout r hr))
    have hhits : (pitcher_matchup_stats df pid).hits =
        (calculate_stats (matchup_filter df pid)).H := by
      rw [pms_hits, cs_H _ hne]
      rfl
    have hso : (pitcher_matchup_stats df pid).strikeouts =
        (calculate_stats (matchup_filter df pid)).SO := by
      rw [pms_strikeouts, cs_SO _ hne]
      unfold matchup_strikeouts
      have hfc : (outcomeRows (matchup_filter df pid)).filter (fun r =>
            eventContains r "strikeout") =
          (outcomeRows (matchup_filter df pid)).filter (fun r =>
            eventIs r ["strikeout", "strikeout_double_play"]) :=
        List.filter_congr (fun r hr => row_strikeout_eq r (hLout r hr))
      rw [hfc]
    have hw : matchup_walks df pid =
        (calcCounts (matchup_filter df pid)).bb +
          (calcCounts (matchup_filter df pid)).ibb := by
      have hbbrfl : (calcCounts (matchup_filter df pid)).bb =
          (((outcomeRows (matchup_filter df pid)).filter (fun r =>
            eventIs r ["walk"])).length : Int) := rfl
      have hibbrfl : (calcCounts (matchup_filter df pid)).ibb =
          (((outcomeRows (matchup_filter df pid)).filter (fun r =>
            eventIs r ["intent_walk"])).length : Int) := rfl
      rw [hbbrfl, hibbrfl]
      unfold matchup_walks
      exact_mod_cast hwalkNat
    have hwalks : (pitcher_matchup_stats df pid).walks =
        (calculate_stats (matchup_filter df pid)).BB +
          (calculate_stats (matchup_filter df pid)).IBB := by
      rw [pms_walks, cs_BB _ hne, cs_IBB _ hne]
      unfold matchup_walks
      exact_mod_cast hwalkNat
    have havg : (pitcher_matchup_stats df pid).avg =
        ba_raw (matchup_filter df pid) := by
      rw [pms_avg, count_at_bats_eq _ hne]
      unfold ba_raw
      rw [hne]
      rfl
    have hslg : (pitcher_matchup_stats df pid).slg =
        slg_raw (matchup_filter df pid) := by
      rw [pms_slg, count_at_bats_eq _ hne]
      unfold slg_raw
      rw [hne]
      rfl
    have hobp : (pitcher_matchup_stats df pid).obp =
        obp_ibb_raw (matchup_filter df pid) := by
      rw [pms_obp, count_at_bats_eq _ hne, hw]
      unfold obp_ibb_raw
      rw [hne]
      rfl
    have hops : (pitcher_matchup_stats df pid).ops =
        obp_ibb_raw (matchup_filter df pid) + slg_raw (matchup_filter df pid) := by
      rw [pms_ops, hobp, hslg]
    exact ⟨by rw [pms_at_bats]; rfl, hhits, hso, hwalks, havg, hslg, hobp, hops⟩

/-- C1 (counterexample): against a pitcher faced for six PAs (one single,
four field outs, one intentional walk) the matchup code reports walks = 1
while the Aggregator's BB = 0 (the intent_walk is counted by the matchup's
substring test but not by BB), and the matchup AVG is the exact 1/6 while
the BattingLine's BA field is the rounded 0.167 — so the matchup summary
stats are not equal to the corresponding BattingLine fields. -/
theorem C1_matchup_refinement_counterexample :
    (pitcher_matchup_stats dfC1 7).walks ≠
      (calculate_stats (matchup_filter dfC1 7)).BB ∧
    (pitcher_matchup_stats dfC1 7).avg ≠
      (calculate_stats (matchup_filter dfC1 7)).BA := by
  constructor
  · decide
  · have hne : (outcomeRows (matchup_filter dfC1 7)).isEmpty = false := by decide
    have hc : calcCounts (matchup_filter dfC1 7) =
        { pa := 6, hits := 1, singles := 1, doubles := 0, triples := 0,
          hr := 0, bb := 0, ibb := 1, hbp := 0, so := 0, sac_hit := 0,
          sac_fly := 0, gdp := 0, ab := 6, tb := 1, rbi := 0, runs := 0,
          games := 1 } := by decide
    have hhits : matchup_hits dfC1 7 = 1 := by decide
    rw [pms_avg, count_at_bats_eq _ hne, cs_nonempty _ hne, hc, hhits]
    unfold statsFromCounts
    norm_num [round3, roundHalfEven]

theorem C1_matchup_refinement_amended_witness :
    dfLegalB dfW1 = true ∧
    (pitcher_matchup_stats dfW1 7).walks =
      (calculate_stats (matchup_filter dfW1 7)).BB +
        (calculate_stats (matchup_filter dfW1 7)).IBB :=
  ⟨by decide, (C1_matchup_refinement_amended dfW1 7 (by decide)).2.2.2.1⟩
